import Mathlib

/-!
Verification of the transaction extraction and conversion pipeline of
`bofa_qfx_converter.py` (a Bank of America CSV/Excel to QFX converter).

The Python source is shallowly embedded: each Python function becomes a Lean
definition over an explicit data model (`Cell` for untyped pandas cells,
`Row` for a labelled data-frame row, `List (List Cell)` for a raw grid).
Machine floats parsed by Python's `float()` are modelled as exact rationals;
the decimal-literal fragment exercised by the program is parsed exactly.
Library calls (`str.strip`, `str.lower`, `pd.to_datetime`, `bytes.decode`)
are modelled by explicit executable functions, with comments noting the
modelled fragment where the library accepts more than the program exercises.
-/

namespace BofaQfx

/-! ## Character and string helpers (models of Python `str` methods) -/

/-- ASCII whitespace recognised by Python `str.strip()` (space, tab, LF, VT, FF, CR). -/
def isWsChar (c : Char) : Bool :=
  c.toNat = 32 || c.toNat = 9 || c.toNat = 10 || c.toNat = 11 || c.toNat = 12 || c.toNat = 13

/-- Lower-case a single ASCII character (model of Python `str.lower` on the
ASCII fragment; the program only compares ASCII keywords). -/
def lowerChar (c : Char) : Char :=
  if 65 ≤ c.toNat && c.toNat ≤ 90 then Char.ofNat (c.toNat + 32) else c

/-- Python `str.strip()`: drop leading and trailing whitespace. -/
def trimList (l : List Char) : List Char :=
  ((l.dropWhile isWsChar).reverse.dropWhile isWsChar).reverse

def trimStr (s : String) : String := String.mk (trimList s.toList)

def lowerStr (s : String) : String := String.mk (s.toList.map lowerChar)

/-- Python `str.replace(old, new)` where `old` is a single character
(the program only replaces the single characters `","`, `"$"`, `" "`). -/
def replaceChar (l : List Char) (c : Char) (rep : List Char) : List Char :=
  l.flatMap (fun x => if x = c then rep else [x])

def replaceCharStr (s : String) (c : Char) (rep : String) : String :=
  String.mk (replaceChar s.toList c rep.toList)

/-- Is `pat` a prefix of `l`? -/
def isPrefixList : List Char → List Char → Bool
  | [], _ => true
  | _ :: _, [] => false
  | a :: as, b :: bs => a == b && isPrefixList as bs

/-- Python `pat in s` substring containment, on char lists. -/
def containsList : List Char → List Char → Bool
  | hay, pat =>
    if isPrefixList pat hay then true
    else match hay with
      | [] => false
      | _ :: t => containsList t pat

/-- Python `pat in s` on strings (case handled by callers, as in the source). -/
def containsStr (s pat : String) : Bool := containsList s.toList pat.toList

/-- Python `s.count(c)` for a single-character needle. -/
def countChar (s : String) (c : Char) : Nat := s.toList.count c

/-- Render a natural number, zero-padded to at least 2 digits (`%m`, `%d`). -/
def pad2 (n : Nat) : String := if n < 10 then "0" ++ Nat.repr n else Nat.repr n

/-- Render a natural number, zero-padded to at least 4 digits (`%Y`). -/
def pad4 (n : Nat) : String :=
  if n < 10 then "000" ++ Nat.repr n
  else if n < 100 then "00" ++ Nat.repr n
  else if n < 1000 then "0" ++ Nat.repr n
  else Nat.repr n

def intStr (i : Int) : String :=
  if i < 0 then "-" ++ Nat.repr i.natAbs else Nat.repr i.natAbs

/-! ## Data model: pandas cells and rows -/

/-- An untyped cell of the loaded table.  `none` models Python `None`
(e.g. `Series.get` on a missing column); `nan` models a float NaN
(pandas' missing-value marker inside a frame); `str`/`num` model textual
and numeric cell payloads.  Numeric cells carry the exact rational value
of the decimal the float was loaded from. -/
inductive Cell where
  | none
  | nan
  | str (s : String)
  | num (q : ℚ)
deriving DecidableEq, Repr

/-- Python truthiness of a cell value: `None` and empty string and numeric
zero are falsy; NaN is truthy (it is a non-zero float). -/
def truthy : Cell → Bool
  | Cell.none => false
  | Cell.nan => true
  | Cell.str s => s ≠ ""
  | Cell.num q => q ≠ 0

/-- `pd.isna`: true exactly for `None` and NaN. -/
def cellIsNa : Cell → Bool
  | Cell.none => true
  | Cell.nan => true
  | _ => false

/-- Python `x == ''` on a cell value (numbers and None never equal `''`). -/
def cellEqEmpty : Cell → Bool
  | Cell.str s => s = ""
  | _ => false

def cellIsStr : Cell → Bool
  | Cell.str _ => true
  | _ => false

/-- Python `a or b`: the first operand when truthy, otherwise the second. -/
def pyOr (a b : Cell) : Cell := if truthy a then a else b

/-- Decimal rendering of a rational, modelling Python `str(float)` for the
values that arise in these tables: integral floats print as `k.0`, and
short decimal fractions print exactly.  (Cells reaching `str()` in the
verified claims are all textual, so this branch is effectively unused.) -/
def ratStr (q : ℚ) : String :=
  if q.den = 1 then intStr q.num ++ ".0"
  else
    let scale : Nat := (10 ^ 9) / q.den
    if q.den * scale = 10 ^ 9 then
      let cents : Nat := q.num.natAbs * scale
      let digits := Nat.repr cents
      let digitsPadded := if digits.length < 10 then
        String.mk (List.replicate (10 - digits.length) '0') ++ digits else digits
      let cut := digitsPadded.length - 9
      let frac := (digitsPadded.toList.drop cut).reverse.dropWhile (· == '0')
      (if q.num < 0 then "-" else "") ++ String.mk (digitsPadded.toList.take cut) ++
        "." ++ (if frac.isEmpty then "0" else String.mk frac.reverse)
    else intStr q.num ++ "/" ++ Nat.repr q.den

/-- Python `str(x)` on a cell value (`str(None) = "None"`, `str(nan) = "nan"`). -/
def cellToStr : Cell → String
  | Cell.none => "None"
  | Cell.nan => "nan"
  | Cell.str s => s
  | Cell.num q => ratStr q

/-- A data-frame row: association list from (normalized) column name to cell.
`rowGet` models `pandas.Series.get`, which returns `None` for a missing label. -/
def Row : Type := List (String × Cell)

def rowGet (r : Row) (k : String) : Cell :=
  match List.find? (fun p => p.1 == k) r with
  | Option.none => Cell.none
  | Option.some p => p.2

/-! ## `detect_delimiter` (source lines 6-22) -/

/-- Embedding of `detect_delimiter(sample)`: count tabs, semicolons and
commas; prefer tab when it appears more than 5 times, else semicolon when
strictly more frequent than comma, else comma when strictly more frequent
than tab and there are no tabs at all; otherwise default to tab. -/
def detect_delimiter (sample : String) : Char :=
  let tab_count := countChar sample '\t'
  let semicolon_count := countChar sample ';'
  let comma_count := countChar sample ','
  if tab_count > 5 then '\t'
  else if semicolon_count > comma_count then ';'
  else if comma_count > tab_count && tab_count == 0 then ','
  else '\t'

/-! ## `find_transaction_header` (source lines 24-39) -/

/-- `row.astype(str).str.strip().str.lower().tolist()` for one grid row. -/
def headerRowStrs (row : List Cell) : List String :=
  row.map (fun c => lowerStr (trimStr (cellToStr c)))

/-- `any('date' in str(col).lower() for col in row_lower[:2])`. -/
def has_date (row : List Cell) : Bool :=
  ((headerRowStrs row).take 2).any (fun col => containsStr (lowerStr col) "date")

/-- `any('amount' in str(col).lower() and 'summary' not in str(col).lower() ...)`. -/
def has_amount (row : List Cell) : Bool :=
  (headerRowStrs row).any
    (fun col => containsStr (lowerStr col) "amount" && !containsStr (lowerStr col) "summary")

/-- The source's header test: a row qualifies when it has a date-like cell
among its first two cells and an amount-like, non-summary cell anywhere.
(`has_description` is computed by the source but never used.) -/
def headerQualifies (row : List Cell) : Bool := has_date row && has_amount row

def findHeaderAux : List (List Cell) → Nat → Option Nat
  | [], _ => Option.none
  | r :: rest, i => if headerQualifies r then Option.some i else findHeaderAux rest (i + 1)

/-- Embedding of `find_transaction_header(df)`: index of the first row that
passes `headerQualifies`, or `None`. -/
def find_transaction_header (g : List (List Cell)) : Option Nat := findHeaderAux g 0

/-! ## Date parsing (model of `pd.to_datetime(value, errors='coerce')`) -/

/-- A calendar date. -/
structure YMD where
  y : Nat
  m : Nat
  d : Nat
deriving DecidableEq, Repr

def isLeap (y : Nat) : Bool := (y % 4 = 0 && y % 100 ≠ 0) || y % 400 = 0

def daysInMonth (y m : Nat) : Nat :=
  if m = 1 || m = 3 || m = 5 || m = 7 || m = 8 || m = 10 || m = 12 then 31
  else if m = 4 || m = 6 || m = 9 || m = 11 then 30
  else if isLeap y then 29 else 28

def validYMD (y m d : Nat) : Bool :=
  1 ≤ m && m ≤ 12 && 1 ≤ d && d ≤ daysInMonth y m

def allDigits (l : List Char) : Bool := l.all Char.isDigit

def digitsVal (l : List Char) : Nat := l.foldl (fun a c => a * 10 + (c.toNat - 48)) 0

/-- Split a char list at every occurrence of `c` (occurrences removed). -/
def splitChar (c : Char) : List Char → List (List Char)
  | [] => [[]]
  | x :: xs =>
    if x = c then [] :: splitChar c xs
    else match splitChar c xs with
      | [] => [[x]]
      | g :: gs => (x :: g) :: gs

/-- Interpret numeric fields `a`, `b`, `year` as a date, month-first with a
day-first retry when the month field exceeds 12 — pandas' behaviour for
ambiguous `a/b/yyyy` inputs with the default (US) parser settings.  A
two-digit year `yy` maps to `20yy` below 69 and `19yy` otherwise. -/
def parseMDY (a b c : List Char) : Option YMD :=
  if allDigits a && allDigits b && allDigits c &&
      decide (1 ≤ a.length) && decide (a.length ≤ 2) &&
      decide (1 ≤ b.length) && decide (b.length ≤ 2) &&
      (c.length == 4 || c.length == 2) then
    let y := if c.length == 2 then
      (if digitsVal c < 69 then 2000 + digitsVal c else 1900 + digitsVal c)
      else digitsVal c
    if validYMD y (digitsVal a) (digitsVal b) then Option.some ⟨y, digitsVal a, digitsVal b⟩
    else if validYMD y (digitsVal b) (digitsVal a) then Option.some ⟨y, digitsVal b, digitsVal a⟩
    else Option.none
  else Option.none

def parseYMDParts (a b c : List Char) : Option YMD :=
  if allDigits a && allDigits b && allDigits c && decide (a.length = 4) &&
      decide (1 ≤ b.length) && decide (b.length ≤ 2) &&
      decide (1 ≤ c.length) && decide (c.length ≤ 2) &&
      validYMD (digitsVal a) (digitsVal b) (digitsVal c) then
    Option.some ⟨digitsVal a, digitsVal b, digitsVal c⟩
  else Option.none

/-- Model of `pd.to_datetime(text, errors='coerce')` restricted to the
numeric formats this converter's inputs use: `M/D/YYYY`, `M/D/YY`,
`YYYY-MM-DD` and `D-M-YYYY` (with the US month-first preference).  Text the
model does not recognise maps to `none`, as pandas' `coerce` maps
unparseable text to `NaT`.  (pandas also accepts spelled-out month names
and timestamps; those never occur in these exports and are not modelled.) -/
def parseDate (l : List Char) : Option YMD :=
  match splitChar '/' l with
  | [a, b, c] => parseMDY a b c
  | _ =>
    match splitChar '-' l with
    | [a, b, c] => if a.length == 4 then parseYMDParts a b c else parseMDY a b c
    | _ => Option.none

/-- `pd.to_datetime(date_value, errors='coerce')` on a cell.  A numeric cell
is interpreted by pandas as a nanosecond offset from the Unix epoch; for the
sub-day magnitudes that could arise here that is 1970-01-01, which is how the
numeric case is modelled. -/
def toDatetime : Cell → Option YMD
  | Cell.str s => parseDate s.toList
  | Cell.num _ => Option.some ⟨1970, 1, 1⟩
  | _ => Option.none

/-- `date.strftime('%Y%m%d')`. -/
def ymdStr (x : YMD) : String := pad4 x.y ++ pad2 x.m ++ pad2 x.d

/-! ## Amount parsing (model of Python `float(text)`) -/

/-- Parse an optional exponent field (after `e`): optional sign, digits. -/
def parseExpPart (l : List Char) : Option Int :=
  match l with
  | '-' :: t => if allDigits t && decide (1 ≤ t.length) then Option.some (-(digitsVal t : Int)) else Option.none
  | '+' :: t => if allDigits t && decide (1 ≤ t.length) then Option.some (digitsVal t : Int) else Option.none
  | t => if allDigits t && decide (1 ≤ t.length) then Option.some (digitsVal t : Int) else Option.none

/-- Parse an unsigned decimal mantissa: `digits`, `digits.`, `.digits`
or `digits.digits` (at least one digit overall). -/
def parseMantissa (l : List Char) : Option ℚ :=
  match splitChar '.' l with
  | [a] =>
    if allDigits a && decide (1 ≤ a.length) then Option.some (mkRat (digitsVal a) 1) else Option.none
  | [a, b] =>
    if allDigits a && allDigits b && decide (1 ≤ a.length + b.length) then
      Option.some (mkRat (digitsVal (a ++ b)) (10 ^ b.length))
    else Option.none
  | _ => Option.none

def parseUnsigned (l : List Char) : Option ℚ :=
  match splitChar 'e' (l.map lowerChar) with
  | [m] => parseMantissa m
  | [m, ex] =>
    match parseMantissa m, parseExpPart ex with
    | Option.some q, Option.some e =>
      if 0 ≤ e then Option.some (q * mkRat (10 ^ e.toNat) 1)
      else Option.some (q * mkRat 1 (10 ^ (-e).toNat))
    | _, _ => Option.none
  | _ => Option.none

/-- Model of Python `float(text)` on finite decimal literals: optional sign,
decimal mantissa, optional exponent.  (`float` also accepts `inf`/`nan`
spellings and embedded underscores; the converter never feeds it those —
`"nan"` is filtered out beforehand by the source itself.) -/
def parseFloat (s : String) : Option ℚ :=
  match s.toList with
  | [] => Option.none
  | c :: t =>
    if c = '-' then (parseUnsigned t).map (fun q => -q)
    else if c = '+' then parseUnsigned t
    else parseUnsigned (c :: t)

/-- The amount-cleaning pipeline of source lines 193-198:
`str(x).replace(",", "").replace("$", "").strip()`, reject empty and
`"nan"` residue, then `float()`.  Note: no parenthesis handling — a
parenthesised amount like `"(12.00)"` reaches `float()` unchanged and fails. -/
def cleanAmountStr (s : String) : String :=
  trimStr (replaceCharStr (replaceCharStr s ',' "") '$' "")

/-- The amount normalizer as a single function (the spec's
`normalize_amount`): `none` models the row-skipping failure paths of lines
194-198 (empty/`nan` residue, or `float()` raising `ValueError`). -/
def normalize_amount (s : String) : Option ℚ :=
  let t := cleanAmountStr s
  if t = "" || t = "nan" then Option.none else parseFloat t

/-! ## Per-row processing (body of the loop at source lines 167-225) -/

/-- The summary keywords tested against the date cell (source line 176). -/
def sumKeywords : List String := ["beginning", "ending", "balance", "total", "summary"]

/-- The summary phrases tested against the description (source line 204). -/
def sumPhrases : List String :=
  ["beginning balance", "ending balance", "total credits", "total debits"]

/-- A record as assembled by one loop iteration, before the FITID counter is
attached.  The `name`/`memo` fields hold the *untruncated* text of the
source's local variables `name` and `memo`. -/
structure PreRecord where
  dateStr : String
  amount : ℚ
  name : String
  memo : String
  trntype : String
deriving DecidableEq, Repr

/-- Outcome of one loop iteration: emit a transaction, skip with a recorded
reason (the `skipped_rows` list), or skip silently (`continue` without a
diagnostic). -/
inductive RowOutcome where
  | emit (p : PreRecord)
  | skip (reason : String)
  | silent
deriving DecidableEq, Repr

/-- The description expression of source line 201 (untruncated):
`str(row.get("description") or row.get("name") or row.get("payee") or "N/A").strip()`. -/
def rowDescription (row : Row) : String :=
  trimStr (cellToStr (pyOr (rowGet row "description")
    (pyOr (rowGet row "name") (pyOr (rowGet row "payee") (Cell.str "N/A")))))

/-- The memo expression of source line 207 (untruncated):
`str(row.get("memo") or row.get("description") or name).strip()`. -/
def rowMemo (row : Row) : String :=
  trimStr (cellToStr (pyOr (rowGet row "memo")
    (pyOr (rowGet row "description") (Cell.str (rowDescription row)))))

/-- One iteration of the transaction loop (source lines 167-225), excluding
the index-dependent parts (the `Row N:` message prefix and the FITID, which
the loop adds).  The generic `except` of line 223 shows up as the
`float()`-failure skip: `float` raising `ValueError` is the one operation in
the body that can raise on these inputs. -/
def processRow (row : Row) : RowOutcome :=
  let date_value := pyOr (rowGet row "date")
    (pyOr (rowGet row "posted_date") (rowGet row "transaction_date"))
  if cellIsNa date_value || cellEqEmpty date_value then RowOutcome.silent
  else if cellIsStr date_value &&
      sumKeywords.any (fun w => containsStr (lowerStr (cellToStr date_value)) w) then
    RowOutcome.silent
  else
    match toDatetime date_value with
    | Option.none => RowOutcome.skip "Invalid date"
    | Option.some d =>
      let date_str := ymdStr d
      let amount_value := pyOr (rowGet row "amount") (rowGet row "transaction_amount")
      if cellIsNa amount_value || cellEqEmpty amount_value then
        RowOutcome.skip "Missing amount"
      else
        let amount_str := cleanAmountStr (cellToStr amount_value)
        if amount_str = "" || amount_str = "nan" then RowOutcome.skip "Empty amount"
        else
          match parseFloat amount_str with
          | Option.none =>
            RowOutcome.skip ("could not convert string to float: '" ++ amount_str ++ "'")
          | Option.some amount =>
            let name := rowDescription row
            if sumPhrases.any (fun w => containsStr (lowerStr name) w) then RowOutcome.silent
            else
              let memo := rowMemo row
              let trntype := if amount < 0 then "DEBIT" else "CREDIT"
              RowOutcome.emit ⟨date_str, amount, name, memo, trntype⟩

/-- A finished transaction record (PreRecord plus the assigned FITID). -/
structure Record where
  dateStr : String
  amount : ℚ
  name : String
  memo : String
  trntype : String
  fitid : Nat
deriving DecidableEq, Repr

def mkRecord (p : PreRecord) (k : Nat) : Record :=
  ⟨p.dateStr, p.amount, p.name, p.memo, p.trntype, k⟩

/-- The transaction loop: walk the rows with the running row index `i`
(pandas' positional index for a default `RangeIndex`) and the transaction
counter `c`; return the records (FITID `c+1`, `c+2`, ...) and the
`skipped_rows` diagnostics (`"Row {i+1}: reason"`). -/
def convertAux : List Row → Nat → Nat → List Record × List String
  | [], _, _ => ([], [])
  | r :: rest, i, c =>
    match processRow r with
    | RowOutcome.emit p =>
      (mkRecord p (c + 1) :: (convertAux rest (i + 1) (c + 1)).1,
       (convertAux rest (i + 1) (c + 1)).2)
    | RowOutcome.skip reason =>
      ((convertAux rest (i + 1) c).1,
       ("Row " ++ Nat.repr (i + 1) ++ ": " ++ reason) :: (convertAux rest (i + 1) c).2)
    | RowOutcome.silent => convertAux rest (i + 1) c

def recordsOf (df : List Row) : List Record := (convertAux df 0 0).1

def skipsOf (df : List Row) : List String := (convertAux df 0 0).2

/-! ## QFX serialization (source lines 111-240) -/

/-- `f"{amount:.2f}"`: fixed two-decimal rendering.  The cent count is
`⌊100q + 1/2⌋`, computed as a floor division on numerator and denominator.
Exact for amounts with at most two decimal places (every amount the claims
exercise); for longer fractions the model rounds half-up where CPython
rounds the underlying binary double half-even. -/
def fmt2 (q : ℚ) : String :=
  let c : Int := Int.fdiv (200 * q.num + (q.den : Int)) (2 * (q.den : Int))
  let n := c.natAbs
  (if c < 0 then "-" else "") ++ Nat.repr (n / 100) ++ "." ++ pad2 (n % 100)

/-- The `<STMTTRN>` block appended per record (source lines 212-219).  The
`NAME` and `MEMO` payloads are truncated here — `name[:32]`, `memo[:255]` —
and nowhere earlier. -/
def serializeRecord (r : Record) : List String :=
  ["          <STMTTRN>",
   "            <TRNTYPE>" ++ r.trntype ++ "</TRNTYPE>",
   "            <DTPOSTED>" ++ r.dateStr ++ "</DTPOSTED>",
   "            <TRNAMT>" ++ fmt2 r.amount ++ "</TRNAMT>",
   "            <FITID>" ++ Nat.repr r.fitid ++ "</FITID>",
   "            <NAME>" ++ String.mk (r.name.toList.take 32) ++ "</NAME>",
   "            <MEMO>" ++ String.mk (r.memo.toList.take 255) ++ "</MEMO>",
   "          </STMTTRN>"]

/-- The fixed QFX preamble (source lines 118-161) with the run timestamp
`now` (`datetime.now().strftime('%Y%m%d%H%M%S')`) and the chosen account
type interpolated, exactly where the source interpolates them. -/
def qfxHeader (now acctType : String) : List String :=
  ["OFXHEADER:100",
   "DATA:OFXSGML",
   "VERSION:102",
   "SECURITY:NONE",
   "ENCODING:USASCII",
   "CHARSET:1252",
   "COMPRESSION:NONE",
   "OLDFILEUID:NONE",
   "NEWFILEUID:NONE",
   "",
   "<OFX>",
   "  <SIGNONMSGSRSV1>",
   "    <SONRS>",
   "      <STATUS>",
   "        <CODE>0</CODE>",
   "        <SEVERITY>INFO</SEVERITY>",
   "      </STATUS>",
   "      <DTSERVER>" ++ now ++ "</DTSERVER>",
   "      <LANGUAGE>ENG</LANGUAGE>",
   "      <FI>",
   "        <ORG>BofA</ORG>",
   "        <FID>10898</FID>",
   "      </FI>",
   "    </SONRS>",
   "  </SIGNONMSGSRSV1>",
   "  <BANKMSGSRSV1>",
   "    <STMTTRNRS>",
   "      <TRNUID>1</TRNUID>",
   "      <STATUS>",
   "        <CODE>0</CODE>",
   "        <SEVERITY>INFO</SEVERITY>",
   "      </STATUS>",
   "      <STMTRS>",
   "        <CURDEF>USD</CURDEF>",
   "        <BANKACCTFROM>",
   "          <BANKID>000000000</BANKID>",
   "          <ACCTID>000000000000</ACCTID>",
   "          <ACCTTYPE>" ++ acctType ++ "</ACCTTYPE>",
   "        </BANKACCTFROM>",
   "        <BANKTRANLIST>",
   "          <DTSTART>" ++ now ++ "</DTSTART>",
   "          <DTEND>" ++ now ++ "</DTEND>"]

/-- The closing lines of the document (source lines 228-238). -/
def qfxFooter (now : String) : List String :=
  ["        </BANKTRANLIST>",
   "        <LEDGERBAL>",
   "          <BALAMT>0.00</BALAMT>",
   "          <DTASOF>" ++ now ++ "</DTASOF>",
   "        </LEDGERBAL>",
   "      </STMTRS>",
   "    </STMTTRNRS>",
   "  </BANKMSGSRSV1>",
   "</OFX>"]

/-- The full line sequence of the produced QFX text. -/
def linesOf (df : List Row) (acctType now : String) : List String :=
  qfxHeader now acctType ++ ((recordsOf df).map serializeRecord).flatten ++ qfxFooter now

/-- Embedding of `convert_to_qfx(df, account_type)`, with the ambient
`datetime.now()` reading passed in as `now`: returns the joined text, the
transaction count and the skipped-row diagnostics. -/
def convert_to_qfx (df : List Row) (acctType now : String) :
    String × Nat × List String :=
  (String.intercalate "\n" (linesOf df acctType now), (recordsOf df).length, skipsOf df)

/-! ## CSV parsing from a raw grid (source lines 92-107) -/

def normColName (s : String) : String :=
  replaceCharStr (lowerStr (trimStr s)) ' ' "_"

/-- Attach the normalized header names to a data row, padding short rows
with NaN as the permissive reader does. -/
def mkRow (cols : List String) (cells : List Cell) : Row :=
  cols.zip (cells ++ List.replicate (cols.length - cells.length) Cell.nan)

/-- The header-dependent tail of `parse_bofa_file` (source lines 92-107),
modelled from the already-parsed raw grid: locate the header row, fail with
the source's terminal message when there is none, otherwise take the rows
below the header, drop fully-NA rows (`dropna(how='all')`) and label the
cells with the normalized header names.  (The `Unnamed:` column pruning of
line 105 concerns pandas' auto-generated names for blank header cells and is
not modelled; no claim depends on it.) -/
def parse_bofa_rows (g : List (List Cell)) : Except String (List Row) :=
  match find_transaction_header g with
  | Option.none => Except.error
      "Could not find the transaction header row in the CSV file. Please ensure this is a valid Bank of America export."
  | Option.some i =>
    match g.drop i with
    | [] => Except.ok []
    | hdr :: dataRows =>
      Except.ok (((dataRows.filter (fun r => !r.all cellIsNa)).map
        (mkRow (hdr.map (fun c => normColName (cellToStr c))))))

/-! ## Byte decoding (source line 70: `file.read().decode("utf-8", errors="ignore")`) -/

def isContByte (b : Nat) : Bool := 128 ≤ b && b ≤ 191

/-- Second-byte range check for a 3-byte lead (excludes overlong encodings
for `0xE0` and UTF-16 surrogates for `0xED`, as a strict decoder must). -/
def cont3Ok (b0 b1 : Nat) : Bool :=
  if b0 = 224 then 160 ≤ b1 && b1 ≤ 191
  else if b0 = 237 then 128 ≤ b1 && b1 ≤ 159
  else isContByte b1

/-- Second-byte range check for a 4-byte lead (excludes overlongs for `0xF0`
and codepoints above `U+10FFFF` for `0xF4`). -/
def cont4Ok (b0 b1 : Nat) : Bool :=
  if b0 = 240 then 144 ≤ b1 && b1 ≤ 191
  else if b0 = 244 then 128 ≤ b1 && b1 ≤ 143
  else isContByte b1

/-- Decode one UTF-8 sequence from the front of the byte list: the decoded
codepoint and the remaining bytes, or `none` when the front is not a valid
sequence. -/
def utf8DecodeOne : List Nat → Option (Nat × List Nat)
  | [] => Option.none
  | b0 :: t =>
    if b0 < 128 then Option.some (b0, t)
    else if 194 ≤ b0 && b0 ≤ 223 then
      match t with
      | b1 :: t1 =>
        if isContByte b1 then Option.some ((b0 - 192) * 64 + (b1 - 128), t1) else Option.none
      | [] => Option.none
    else if 224 ≤ b0 && b0 ≤ 239 then
      match t with
      | b1 :: b2 :: t2 =>
        if cont3Ok b0 b1 && isContByte b2 then
          Option.some ((b0 - 224) * 4096 + (b1 - 128) * 64 + (b2 - 128), t2)
        else Option.none
      | _ => Option.none
    else if 240 ≤ b0 && b0 ≤ 244 then
      match t with
      | b1 :: b2 :: b3 :: t3 =>
        if cont4Ok b0 b1 && isContByte b2 && isContByte b3 then
          Option.some ((b0 - 240) * 262144 + (b1 - 128) * 4096 + (b2 - 128) * 64 + (b3 - 128), t3)
        else Option.none
      | _ => Option.none
    else Option.none

/-- Strict UTF-8 decoding worker.  The fuel argument only serves structural
termination; each decoded sequence consumes at least one byte, so starting
the fuel at the byte count (as `utf8DecodeStrict` does) never exhausts it. -/
def utf8StrictAux : Nat → List Nat → Option (List Nat)
  | _, [] => Option.some []
  | 0, _ :: _ => Option.none
  | fuel + 1, b :: t =>
    match utf8DecodeOne (b :: t) with
    | Option.some cr => (utf8StrictAux fuel cr.2).map (fun rest => cr.1 :: rest)
    | Option.none => Option.none

/-- Strict UTF-8 decoding to a codepoint list (`bytes.decode("utf-8")`
without an error handler): `none` as soon as any sequence is invalid. -/
def utf8DecodeStrict (l : List Nat) : Option (List Nat) := utf8StrictAux l.length l

/-- Worker for UTF-8 decoding with `errors="ignore"`; same fuel discipline. -/
def utf8IgnoreAux : Nat → List Nat → List Nat
  | _, [] => []
  | 0, _ :: _ => []
  | fuel + 1, b :: t =>
    match utf8DecodeOne (b :: t) with
    | Option.some cr => cr.1 :: utf8IgnoreAux fuel cr.2
    | Option.none => utf8IgnoreAux fuel t

/-- UTF-8 decoding with `errors="ignore"`: an undecodable byte is dropped
and decoding resumes.  (CPython skips per maximal invalid subpart; for the
single-byte failures considered here the two notions coincide.)  This is the
decoder the source actually uses — it is total and never reports failure. -/
def utf8DecodeIgnore (l : List Nat) : List Nat := utf8IgnoreAux l.length l

/-- `bytes.decode("latin-1")`: every byte maps to the codepoint of the same
value; this decoding never fails. -/
def latin1Decode (l : List Nat) : Option (List Nat) :=
  if l.all (· < 256) then Option.some l else Option.none

/-- The Windows-1252 mapping for the `0x80`-`0x9F` range (`none` for the
five unassigned bytes, on which a strict `cp1252` decode fails). -/
def cp1252High (b : Nat) : Option Nat :=
  if b = 128 then Option.some 8364 else if b = 130 then Option.some 8218
  else if b = 131 then Option.some 402 else if b = 132 then Option.some 8222
  else if b = 133 then Option.some 8230 else if b = 134 then Option.some 8224
  else if b = 135 then Option.some 8225 else if b = 136 then Option.some 710
  else if b = 137 then Option.some 8240 else if b = 138 then Option.some 352
  else if b = 139 then Option.some 8249 else if b = 140 then Option.some 338
  else if b = 142 then Option.some 381 else if b = 145 then Option.some 8216
  else if b = 146 then Option.some 8217 else if b = 147 then Option.some 8220
  else if b = 148 then Option.some 8221 else if b = 149 then Option.some 8226
  else if b = 150 then Option.some 8211 else if b = 151 then Option.some 8212
  else if b = 152 then Option.some 732 else if b = 153 then Option.some 8482
  else if b = 154 then Option.some 353 else if b = 155 then Option.some 8250
  else if b = 156 then Option.some 339 else if b = 158 then Option.some 382
  else if b = 159 then Option.some 376 else Option.none

/-- `bytes.decode("windows-1252")` (strict). -/
def cp1252Decode (l : List Nat) : Option (List Nat) :=
  match l with
  | [] => Option.some []
  | b :: t =>
    match (if 128 ≤ b && b ≤ 159 then cp1252High b
           else if b < 256 then Option.some b else Option.none) with
    | Option.some c => (cp1252Decode t).map (fun rest => c :: rest)
    | Option.none => Option.none

/-- `bytes.decode("utf-8-sig")`: strict UTF-8 with an optional leading BOM. -/
def utf8SigDecode (l : List Nat) : Option (List Nat) :=
  match l with
  | 239 :: 187 :: 191 :: t => utf8DecodeStrict t
  | _ => utf8DecodeStrict l

/-- Modelled from the spec: the TableLoader decode step as §4.1 words it —
"decode bytes trying an ordered list of encodings (`utf-8-with-optional-BOM`,
`utf-8`, `latin-1`, `windows-1252`), accepting the first that decodes
without error".  (This strategy is what C5 claims; the source instead calls
`decode("utf-8", errors="ignore")` once.) -/
def specOrderedDecode (l : List Nat) : Option (List Nat) :=
  ((utf8SigDecode l).orElse (fun _ => utf8DecodeStrict l)).orElse
    (fun _ => (latin1Decode l).orElse (fun _ => cp1252Decode l))

/-- The CSV-branch load step of `parse_bofa_file` (source lines 70-90) at
the text level: decode ignoring undecodable bytes, drop blank lines, and
fail — as `pd.read_csv` does with `EmptyDataError`, wrapped by the source
into `ValueError("Unable to read CSV file: ...")` — when no content is
left.  Decoding itself can never fail. -/
def loadCsvText (bytes : List Nat) : Except String (List (List Char)) :=
  let content := (utf8DecodeIgnore bytes).map Char.ofNat
  let cleaned := (splitChar '\n' content).filter (fun line => trimList line ≠ [])
  if cleaned = [] then
    Except.error "Unable to read CSV file: No columns to parse from file"
  else Except.ok cleaned

/-! ## Auxiliary predicates used by the statements -/

def outcomeEmits : RowOutcome → Bool
  | RowOutcome.emit _ => true
  | _ => false

def outcomeSkips : RowOutcome → Bool
  | RowOutcome.skip _ => true
  | _ => false

def outcomeSilent : RowOutcome → Bool
  | RowOutcome.silent => true
  | _ => false

/-- Modelled from the spec: a row "flagged as a totals/summary row"
(condition (c) of §4.2's header test), which the source never checks for
header candidates.  A row is so flagged when any of its cells contains one
of the summary keywords the source itself uses to recognise summary rows in
the data section (`beginning`, `ending`, `balance`, `total`, `summary`). -/
def isSummaryRowSpec (row : List Cell) : Bool :=
  (headerRowStrs row).any (fun s => sumKeywords.any (fun w => containsStr s w))

/-- Modelled from the spec: the full §4.2 header test — conditions (a) and
(b) as the source implements them, plus condition (c). -/
def specHeaderQualifies (row : List Cell) : Bool :=
  has_date row && has_amount row && !isSummaryRowSpec row

/-- The slice of the output line list holding the `<STMTTRN>` blocks: the
preamble is always 42 lines and the closing block 9 lines. -/
def transactionRegion (ls : List String) : List String :=
  (ls.drop 42).take (ls.length - 51)

/-! ## Helper lemmas -/

theorem utf8DecodeOne_length {l : List Nat} {c : Nat} {r : List Nat}
    (h : utf8DecodeOne l = Option.some (c, r)) : r.length < l.length := by
  cases l with
  | nil => simp [utf8DecodeOne] at h
  | cons b0 t =>
    simp only [utf8DecodeOne] at h
    repeat' split at h
    all_goals simp_all
    all_goals omega

theorem utf8Aux_ignore_eq_strict :
    ∀ fuel l cps, l.length ≤ fuel → utf8StrictAux fuel l = Option.some cps →
      utf8IgnoreAux fuel l = cps := by
  intro fuel
  induction fuel with
  | zero =>
    intro l cps hl h
    cases l with
    | nil => simp [utf8StrictAux] at h; simp [utf8IgnoreAux, h]
    | cons b t => simp at hl
  | succ n ih =>
    intro l cps hl h
    cases l with
    | nil => simp [utf8StrictAux] at h; simp [utf8IgnoreAux, h]
    | cons b t =>
      simp only [utf8StrictAux] at h
      simp only [utf8IgnoreAux]
      cases hd : utf8DecodeOne (b :: t) with
      | none => simp [hd] at h
      | some cr =>
        simp only [hd, Option.map_eq_some'] at h
        obtain ⟨rest, hrest, hcps⟩ := h
        have hlen : cr.2.length ≤ n := by
          have h1 := utf8DecodeOne_length (l := b :: t) (c := cr.1) (r := cr.2)
            (by simpa using hd)
          simp at h1 hl
          omega
        simp only [hd]
        rw [ih cr.2 rest hlen hrest, hcps]

theorem findHeaderAux_some :
    ∀ (g : List (List Cell)) (k i : Nat), findHeaderAux g k = Option.some i →
      ∃ j, i = k + j ∧ (∃ row, g.get? j = Option.some row ∧ headerQualifies row = true) ∧
        ∀ j' row', j' < j → g.get? j' = Option.some row' → headerQualifies row' = false := by
  intro g
  induction g with
  | nil => intro k i h; simp [findHeaderAux] at h
  | cons r rest ih =>
    intro k i h
    simp only [findHeaderAux] at h
    by_cases hq : headerQualifies r = true
    · rw [if_pos hq] at h
      refine ⟨0, by simp_all, ⟨r, by simp, hq⟩, ?_⟩
      intro j' row' hj' _
      omega
    · rw [if_neg hq] at h
      obtain ⟨j, hij, ⟨row, hrow, hrowq⟩, hmin⟩ := ih (k + 1) i h
      refine ⟨j + 1, by omega, ⟨row, by simpa using hrow, hrowq⟩, ?_⟩
      intro j' row' hj' hget
      cases j' with
      | zero =>
        simp at hget
        subst hget
        simpa using hq
      | succ j'' =>
        exact hmin j'' row' (by omega) (by simpa using hget)

theorem findHeaderAux_none :
    ∀ (g : List (List Cell)) (k : Nat), findHeaderAux g k = Option.none →
      ∀ row ∈ g, headerQualifies row = false := by
  intro g
  induction g with
  | nil => intro k _ row hrow; simp at hrow
  | cons r rest ih =>
    intro k h row hrow
    simp only [findHeaderAux] at h
    by_cases hq : headerQualifies r = true
    · rw [if_pos hq] at h; cases h
    · rw [if_neg hq] at h
      rcases List.mem_cons.mp hrow with hr | hr
      · subst hr; simpa using hq
      · exact ih (k + 1) h row hr

theorem convertAux_records_length (rows : List Row) :
    ∀ i c, ((convertAux rows i c).1).length =
      rows.countP (fun r => outcomeEmits (processRow r)) := by
  induction rows with
  | nil => intro i c; simp [convertAux]
  | cons r rest ih =>
    intro i c
    cases h : processRow r <;>
      simp [convertAux, h, List.countP_cons, outcomeEmits, ih]

theorem convertAux_skips_length (rows : List Row) :
    ∀ i c, ((convertAux rows i c).2).length =
      rows.countP (fun r => outcomeSkips (processRow r)) := by
  induction rows with
  | nil => intro i c; simp [convertAux]
  | cons r rest ih =>
    intro i c
    cases h : processRow r <;>
      simp [convertAux, h, List.countP_cons, outcomeSkips, ih]

theorem convertAux_partition (rows : List Row) :
    ∀ i c, ((convertAux rows i c).1).length + ((convertAux rows i c).2).length +
      rows.countP (fun r => outcomeSilent (processRow r)) = rows.length := by
  induction rows with
  | nil => intro i c; simp [convertAux]
  | cons r rest ih =>
    intro i c
    cases h : processRow r with
    | emit p =>
      have hrec := ih (i + 1) (c + 1)
      have hv : outcomeSilent (RowOutcome.emit p) = false := rfl
      simp only [convertAux, h, List.countP_cons, List.length_cons, hv,
        Bool.false_eq_true, if_false]
      omega
    | skip reason =>
      have hrec := ih (i + 1) c
      have hv : outcomeSilent (RowOutcome.skip reason) = false := rfl
      simp only [convertAux, h, List.countP_cons, List.length_cons, hv,
        Bool.false_eq_true, if_false]
      omega
    | silent =>
      have hrec := ih (i + 1) c
      have hv : outcomeSilent RowOutcome.silent = true := rfl
      simp only [convertAux, h, List.countP_cons, List.length_cons, hv,
        eq_self_iff_true, if_true]
      omega

theorem convertAux_fitids (rows : List Row) :
    ∀ i c, ((convertAux rows i c).1).map Record.fitid =
      List.range' (c + 1) ((convertAux rows i c).1).length := by
  induction rows with
  | nil => intro i c; simp [convertAux]
  | cons r rest ih =>
    intro i c
    cases h : processRow r with
    | emit p => simp [convertAux, h, mkRecord, ih, List.range'_succ]
    | skip reason => simp [convertAux, h, ih]
    | silent => simp [convertAux, h, ih]

theorem convertAux_mem (rows : List Row) :
    ∀ i c r, r ∈ (convertAux rows i c).1 →
      ∃ row ∈ rows, processRow row =
        RowOutcome.emit ⟨r.dateStr, r.amount, r.name, r.memo, r.trntype⟩ := by
  induction rows with
  | nil => intro i c r h; simp [convertAux] at h
  | cons row0 rest ih =>
    intro i c r h
    cases hp : processRow row0 with
    | emit p =>
      simp only [convertAux, hp, List.mem_cons] at h
      rcases h with h | h
      · refine ⟨row0, by simp, ?_⟩
        subst h
        rw [hp]
        cases p
        rfl
      · obtain ⟨row, hrow, hout⟩ := ih (i + 1) (c + 1) r h
        exact ⟨row, by simp [hrow], hout⟩
    | skip reason =>
      simp only [convertAux, hp] at h
      obtain ⟨row, hrow, hout⟩ := ih (i + 1) c r h
      exact ⟨row, by simp [hrow], hout⟩
    | silent =>
      simp only [convertAux, hp] at h
      obtain ⟨row, hrow, hout⟩ := ih (i + 1) c r h
      exact ⟨row, by simp [hrow], hout⟩

theorem processRow_emit_fields {row : Row} {p : PreRecord}
    (h : processRow row = RowOutcome.emit p) :
    p.name = rowDescription row ∧ p.memo = rowMemo row := by
  simp only [processRow] at h
  repeat' split at h
  all_goals try (cases h)
  all_goals exact ⟨rfl, rfl⟩

theorem pyOr_num_zero (x : Cell) : pyOr (Cell.num 0) x = x := by
  simp [pyOr, truthy]

theorem pyOr_none (x : Cell) : pyOr Cell.none x = x := by
  simp [pyOr, truthy]

theorem transactionRegion_linesOf (df : List Row) (acctType now : String) :
    transactionRegion (linesOf df acctType now) =
      ((recordsOf df).map serializeRecord).flatten := by
  unfold transactionRegion linesOf
  have hh : (qfxHeader now acctType).length = 42 := rfl
  have hf : (qfxFooter now).length = 9 := rfl
  rw [List.append_assoc]
  rw [show (42 : Nat) = (qfxHeader now acctType).length from hh.symm, List.drop_left]
  have hlen : (qfxHeader now acctType ++
      (((recordsOf df).map serializeRecord).flatten ++ qfxFooter now)).length - 51 =
      (((recordsOf df).map serializeRecord).flatten).length := by
    simp [List.length_append, hh, hf]
    omega
  rw [hlen, List.take_left]

/-! ## Claim theorems -/

/-- C1, counterexample: the claim requires condition (c) — the header row
must not itself be a totals/summary row — and requires header-not-found
failure when no row satisfies all three conditions.  On a grid whose only
row is the totals row `["Total transactions for date range", "Amount"]`, no
row satisfies the spec's three conditions (the row is flagged by the
summary keyword `total`), yet `find_transaction_header` returns index 0 and
the parse succeeds instead of failing. -/
theorem C1_header_location_counterexample :
    find_transaction_header
      [[Cell.str "Total transactions for date range", Cell.str "Amount"]] = Option.some 0 ∧
    (∀ row ∈ [[Cell.str "Total transactions for date range", Cell.str "Amount"]],
      specHeaderQualifies row = false) ∧
    parse_bofa_rows [[Cell.str "Total transactions for date range", Cell.str "Amount"]] =
      Except.ok [] :=
  ⟨by decide, by decide, by rfl⟩

/-- C1, amended: the header locator returns the index of the first row
satisfying conditions (a) and (b) only — a date-like token in the first two
cells and an amount-no-summary cell anywhere; no totals/summary-row
exclusion (the spec's condition (c)) is applied to the candidate row — and
when no row satisfies (a) and (b) the conversion fails with the terminal
header-not-found error. -/
theorem C1_header_location (g : List (List Cell)) :
    (∀ i, find_transaction_header g = Option.some i →
      (∃ row, g.get? i = Option.some row ∧ headerQualifies row = true) ∧
        ∀ j row', j < i → g.get? j = Option.some row' → headerQualifies row' = false) ∧
    (find_transaction_header g = Option.none →
      (∀ row ∈ g, headerQualifies row = false) ∧
      ∃ e, parse_bofa_rows g = Except.error e) := by
  constructor
  · intro i h
    obtain ⟨j, hij, hex, hmin⟩ := findHeaderAux_some g 0 i h
    have hji : j = i := by omega
    subst hji
    exact ⟨hex, hmin⟩
  · intro h
    refine ⟨findHeaderAux_none g 0 h, ?_⟩
    unfold parse_bofa_rows
    rw [show find_transaction_header g = Option.none from h]
    exact ⟨_, rfl⟩

theorem C1_header_location_witness :
    ∃ row, [[Cell.str "Account Summary"],
      [Cell.str "Date", Cell.str "Amount", Cell.str "Description"]].get? 1 =
        Option.some row ∧ headerQualifies row = true :=
  ((C1_header_location [[Cell.str "Account Summary"],
      [Cell.str "Date", Cell.str "Amount", Cell.str "Description"]]).1 1 (by decide)).1

/-- C2, counterexample: the claim states `normalize_amount("(12.00)") =
-12.00` (parenthesised text read as negative).  The source's normalizer
only strips commas and dollar signs; `float("(12.00)")` raises, so the
normalizer fails on a parenthesised amount instead of returning `-12`. -/
theorem C2_amount_normalization_counterexample :
    normalize_amount "(12.00)" = Option.none ∧
    normalize_amount "(12.00)" ≠ Option.some (-12 : ℚ) := by decide

/-- C2, amended: `normalize_amount("$1,234.56") = 1234.56` and
`normalize_amount("-45.10") = -45.10`, stripping currency symbols and
thousands separators before parsing; but a parenthesised value such as
`"(12.00)"` is not interpreted as negative — it fails to parse and the row
is skipped. -/
theorem C2_amount_normalization :
    normalize_amount "$1,234.56" = Option.some ((123456 : ℚ) / 100) ∧
    normalize_amount "-45.10" = Option.some (-((4510 : ℚ) / 100)) ∧
    normalize_amount "(12.00)" = Option.none := by
  refine ⟨?_, ?_, by decide⟩
  · have h : normalize_amount "$1,234.56" = Option.some (mkRat 123456 100) := by decide
    rw [h]
    norm_num [Rat.mkRat_eq_div]
  · have h : normalize_amount "-45.10" = Option.some (-(mkRat 4510 100)) := by decide
    rw [h]
    norm_num [Rat.mkRat_eq_div]

/-- C3, counterexample: the claim states the detector "falls back to comma
when no candidate dominates".  On the sample `"abc"` no separator occurs at
all — no candidate dominates — yet the source returns tab, not comma. -/
theorem C3_delimiter_detection_counterexample :
    countChar "abc" '\t' = 0 ∧ countChar "abc" ';' = 0 ∧ countChar "abc" ',' = 0 ∧
    detect_delimiter "abc" = '\t' ∧ detect_delimiter "abc" ≠ ',' := by decide

/-- C3, amended: the detector counts tab, semicolon and comma in priority
order and selects tab when it appears more than 5 times; otherwise it
selects semicolon when semicolons outnumber commas, comma when commas
outnumber tabs and no tab occurs at all, and in every remaining case it
falls back to tab (not comma). -/
theorem C3_delimiter_detection (s : String) :
    (5 < countChar s '\t' → detect_delimiter s = '\t') ∧
    (countChar s '\t' ≤ 5 → countChar s ',' < countChar s ';' → detect_delimiter s = ';') ∧
    (countChar s '\t' = 0 → countChar s ';' ≤ countChar s ',' → 0 < countChar s ',' →
      detect_delimiter s = ',') ∧
    (countChar s '\t' ≤ 5 → countChar s ';' ≤ countChar s ',' →
      (countChar s ',' ≤ countChar s '\t' ∨ countChar s '\t' ≠ 0) →
      detect_delimiter s = '\t') := by
  refine ⟨?_, ?_, ?_, ?_⟩ <;> intros <;> simp only [detect_delimiter] <;> split_ifs <;>
    simp_all
  all_goals omega

theorem C3_delimiter_detection_witness :
    detect_delimiter ",,," = ',' :=
  (C3_delimiter_detection ",,,").2.2.1 (by decide) (by decide) (by decide)

/-- C6: the FITID values of the produced records form the gap-free sequence
1, 2, 3, ... in record order (the counter advances only on rows that emit a
record), hence every FITID is unique within one conversion's output. -/
theorem C6_fitid_sequence (df : List Row) :
    (recordsOf df).map Record.fitid = List.range' 1 ((recordsOf df).length) ∧
    ((recordsOf df).map Record.fitid).Nodup := by
  have h : (recordsOf df).map Record.fitid = List.range' 1 ((recordsOf df).length) := by
    simpa [recordsOf] using convertAux_fitids df 0 0
  exact ⟨h, h ▸ List.nodup_range' 1 ((recordsOf df).length) 1 (by omega)⟩

/-- C7: the conversion is deterministic in everything except the injected
clock reading `now`: for the same parsed frame, the `<STMTTRN>` region of
the output (all record data: dates, amounts, names, memos, types, FITIDs)
and the count/diagnostics pair are identical across runs with different
clock readings — the records depend on nothing but the input rows. -/
theorem C7_determinism (df : List Row) (acctType now1 now2 : String) :
    transactionRegion (linesOf df acctType now1) =
      transactionRegion (linesOf df acctType now2) ∧
    (convert_to_qfx df acctType now1).2 = (convert_to_qfx df acctType now2).2 := by
  refine ⟨?_, rfl⟩
  rw [transactionRegion_linesOf, transactionRegion_linesOf]

/-- C10: `convert_to_qfx` is total — every row yields exactly one of
record / diagnostic skip / silent skip, so the counts partition the input —
and the output text always begins with the complete fixed OFX header block
and ends with the closing `</OFX>` line, whatever the input frame holds. -/
theorem C10_serialization_totality (df : List Row) (acctType now : String) :
    (linesOf df acctType now).take 17 =
      ["OFXHEADER:100", "DATA:OFXSGML", "VERSION:102", "SECURITY:NONE",
       "ENCODING:USASCII", "CHARSET:1252", "COMPRESSION:NONE", "OLDFILEUID:NONE",
       "NEWFILEUID:NONE", "", "<OFX>", "  <SIGNONMSGSRSV1>", "    <SONRS>",
       "      <STATUS>", "        <CODE>0</CODE>",
       "        <SEVERITY>INFO</SEVERITY>", "      </STATUS>"] ∧
    (linesOf df acctType now).getLast? = Option.some "</OFX>" ∧
    (recordsOf df).length + (skipsOf df).length +
      df.countP (fun r => outcomeSilent (processRow r)) = df.length := by
  refine ⟨?_, ?_, convertAux_partition df 0 0⟩
  · unfold linesOf
    rw [List.append_assoc]
    rw [List.take_append_of_le_length
      (by rw [show (qfxHeader now acctType).length = 42 from rfl]; omega)]
    rfl
  · unfold linesOf
    rw [List.getLast?_append]
    rfl

/-- C4: row-skip tolerance — for any frame consisting of nine rows that each
produce a record and one row (in any position) that produces a diagnostic
skip (e.g. an unparseable amount), the conversion yields exactly 9 records
and exactly 1 skipped-row diagnostic; the loop is total, so no row can
abort the conversion. -/
theorem C4_row_skip_tolerance (pre post : List Row) (bad : Row)
    (hpre : ∀ r ∈ pre, outcomeEmits (processRow r) = true)
    (hpost : ∀ r ∈ post, outcomeEmits (processRow r) = true)
    (hbad : outcomeSkips (processRow bad) = true)
    (hn : pre.length + post.length = 9) :
    (recordsOf (pre ++ bad :: post)).length = 9 ∧
    (skipsOf (pre ++ bad :: post)).length = 1 := by
  have hrec := convertAux_records_length (pre ++ bad :: post) 0 0
  have hskip := convertAux_skips_length (pre ++ bad :: post) 0 0
  have hbe : outcomeEmits (processRow bad) = false := by
    cases ho : processRow bad <;> simp_all [outcomeEmits, outcomeSkips]
  have e1 : pre.countP (fun r => outcomeEmits (processRow r)) = pre.length :=
    List.countP_eq_length.mpr (by intro a ha; simpa using hpre a ha)
  have e2 : post.countP (fun r => outcomeEmits (processRow r)) = post.length :=
    List.countP_eq_length.mpr (by intro a ha; simpa using hpost a ha)
  have s1 : pre.countP (fun r => outcomeSkips (processRow r)) = 0 := by
    apply List.countP_eq_zero.mpr
    intro a ha
    have := hpre a ha
    cases ho : processRow a <;> simp_all [outcomeEmits, outcomeSkips]
  have s2 : post.countP (fun r => outcomeSkips (processRow r)) = 0 := by
    apply List.countP_eq_zero.mpr
    intro a ha
    have := hpost a ha
    cases ho : processRow a <;> simp_all [outcomeEmits, outcomeSkips]
  constructor
  · show (convertAux (pre ++ bad :: post) 0 0).1.length = 9
    rw [hrec, List.countP_append, List.countP_cons, e1, e2, hbe]
    simp
    omega
  · show (convertAux (pre ++ bad :: post) 0 0).2.length = 1
    rw [hskip, List.countP_append, List.countP_cons, s1, s2, hbad]
    simp

theorem C4_row_skip_tolerance_witness :
    (recordsOf (List.replicate 4
        [("date", Cell.str "01/15/2024"), ("description", Cell.str "Coffee Shop"),
         ("amount", Cell.str "-4.50")] ++
      [("date", Cell.str "01/16/2024"), ("description", Cell.str "Bad Row"),
       ("amount", Cell.str "abc")] ::
      List.replicate 5
        [("date", Cell.str "01/17/2024"), ("description", Cell.str "Deposit"),
         ("amount", Cell.str "$1,200.00")])).length = 9 ∧
    (skipsOf (List.replicate 4
        [("date", Cell.str "01/15/2024"), ("description", Cell.str "Coffee Shop"),
         ("amount", Cell.str "-4.50")] ++
      [("date", Cell.str "01/16/2024"), ("description", Cell.str "Bad Row"),
       ("amount", Cell.str "abc")] ::
      List.replicate 5
        [("date", Cell.str "01/17/2024"), ("description", Cell.str "Deposit"),
         ("amount", Cell.str "$1,200.00")])).length = 1 :=
  C4_row_skip_tolerance _ _ _ (by decide) (by decide) (by decide) (by decide)

/-- C5, counterexample: the claim says the loader tries the ordered encoding
list and accepts the first that decodes without error.  For the byte stream
`[0xFF]`, strict UTF-8 fails and latin-1 is the first encoding that
succeeds, giving the codepoint 255 — but the source decodes with
`utf-8, errors="ignore"`, which silently drops the byte and yields the
empty text instead. -/
theorem C5_text_loading_counterexample :
    specOrderedDecode [255] = Option.some [255] ∧
    utf8DecodeIgnore [255] = [] ∧
    utf8DecodeIgnore [255] ≠ [255] := by decide

/-- C5, amended: the loader decodes with UTF-8 alone, ignoring errors: on
byte streams that are valid UTF-8 it agrees with a strict UTF-8 decode, and
it never fails — undecodable bytes are dropped rather than retried under
latin-1/windows-1252; the empty byte stream does not raise a decoding
`LoadError` but fails later at the CSV-read step (`EmptyDataError`, wrapped
as "Unable to read CSV file"). -/
theorem C5_text_loading (bs cps : List Nat)
    (h : utf8DecodeStrict bs = Option.some cps) :
    utf8DecodeIgnore bs = cps ∧
    loadCsvText [] =
      Except.error "Unable to read CSV file: No columns to parse from file" :=
  ⟨utf8Aux_ignore_eq_strict bs.length bs cps le_rfl h, rfl⟩

theorem C5_text_loading_witness :
    utf8DecodeStrict [72, 105] = Option.some [72, 105] ∧
    utf8DecodeIgnore [72, 105] = [72, 105] :=
  ⟨by decide, (C5_text_loading [72, 105] [72, 105] (by decide)).1⟩

/-- C8: descriptions are preserved untruncated in the assembled records —
every record's `name`/`memo` equal the full (trimmed, but never shortened)
description/memo expressions of its source row — and hard truncation (no
ellipsis) happens only in the serialized lines: the `NAME` payload is
`name` cut to 32 characters and the `MEMO` payload is `memo` cut to 255,
both bounds holding for every record. -/
theorem C8_truncation_boundary :
    (∀ rows : List Row, ∀ r ∈ recordsOf rows,
      ∃ row ∈ rows, r.name = rowDescription row ∧ r.memo = rowMemo row) ∧
    (∀ r : Record,
      (serializeRecord r).get? 5 =
        Option.some ("            <NAME>" ++ String.mk (r.name.toList.take 32) ++ "</NAME>") ∧
      (serializeRecord r).get? 6 =
        Option.some ("            <MEMO>" ++ String.mk (r.memo.toList.take 255) ++ "</MEMO>") ∧
      (r.name.toList.take 32).length ≤ 32 ∧ (r.memo.toList.take 255).length ≤ 255) := by
  constructor
  · intro rows r hr
    obtain ⟨row, hrow, hout⟩ := convertAux_mem rows 0 0 r hr
    have hf := processRow_emit_fields hout
    exact ⟨row, hrow, hf⟩
  · intro r
    exact ⟨rfl, rfl, by simp, by simp⟩

theorem C8_truncation_boundary_witness :
    ∃ row ∈ [[("date", Cell.str "01/15/2024"),
      ("description", Cell.str "A very long merchant description over 32 chars"),
      ("amount", Cell.str "-4.50")]],
      (⟨"20240115", mkRat (-450) 100,
        "A very long merchant description over 32 chars",
        "A very long merchant description over 32 chars", "DEBIT", 1⟩ : Record).name =
          rowDescription row ∧
      (⟨"20240115", mkRat (-450) 100,
        "A very long merchant description over 32 chars",
        "A very long merchant description over 32 chars", "DEBIT", 1⟩ : Record).memo =
          rowMemo row :=
  C8_truncation_boundary.1
    [[("date", Cell.str "01/15/2024"),
      ("description", Cell.str "A very long merchant description over 32 chars"),
      ("amount", Cell.str "-4.50")]] _ (by decide)

/-- C9: a numeric 0 in the amount cell is falsy in Python, so the source's
`row.get("amount") or row.get("transaction_amount")` chain treats it
exactly like an absent amount: processing a row whose amount cell is the
number 0 is identical to processing the same row with no amount at all
(first conjunct), and with no fallback column present such a row emits no
record and is recorded as a "Missing amount" diagnostic — whereas the text
"0" is truthy and yields a CREDIT record with amount 0, serialized as
"0.00" (second conjunct). -/
theorem C9_zero_amount :
    (∀ row row' : Row,
      (∀ k, k ≠ "amount" → rowGet row k = rowGet row' k) →
      rowGet row "amount" = Cell.num 0 → rowGet row' "amount" = Cell.none →
      processRow row = processRow row') ∧
    (∀ dv desc : String, ∀ d : YMD,
      toDatetime (Cell.str dv) = Option.some d → dv ≠ "" →
      (sumKeywords.any fun w => containsStr (lowerStr dv) w) = false →
      desc ≠ "" →
      (sumPhrases.any fun w => containsStr (lowerStr (trimStr desc)) w) = false →
      convertAux [[("date", Cell.str dv), ("description", Cell.str desc),
        ("amount", Cell.num 0)]] 0 0 = ([], ["Row 1: Missing amount"]) ∧
      ∃ p : PreRecord,
        processRow [("date", Cell.str dv), ("description", Cell.str desc),
          ("amount", Cell.str "0")] = RowOutcome.emit p ∧
        p.amount = 0 ∧ p.trntype = "CREDIT" ∧ fmt2 p.amount = "0.00") := by
  constructor
  · intro row row' hk ha ha'
    have e1 := hk "date" (by decide)
    have e2 := hk "posted_date" (by decide)
    have e3 := hk "transaction_date" (by decide)
    have e4 := hk "description" (by decide)
    have e5 := hk "name" (by decide)
    have e6 := hk "payee" (by decide)
    have e7 := hk "memo" (by decide)
    have e8 := hk "transaction_amount" (by decide)
    simp only [processRow, rowDescription, rowMemo, e1, e2, e3, e4, e5, e6, e7, e8,
      ha, ha', pyOr_num_zero, pyOr_none]
  · intro dv desc d h1 h2 h3 h4 h5
    have c1 : (cellIsNa (Cell.str dv) || cellEqEmpty (Cell.str dv)) = false := by
      simp [cellIsNa, cellEqEmpty, h2]
    have c2 : (cellIsStr (Cell.str dv) &&
        sumKeywords.any fun w => containsStr (lowerStr (cellToStr (Cell.str dv))) w) =
          false := by
      simp only [cellToStr, h3, Bool.and_false]
    have hz : processRow [("date", Cell.str dv), ("description", Cell.str desc),
        ("amount", Cell.num 0)] = RowOutcome.skip "Missing amount" := by
      have g1 : rowGet [("date", Cell.str dv), ("description", Cell.str desc),
          ("amount", Cell.num 0)] "date" = Cell.str dv := rfl
      have g2 : rowGet [("date", Cell.str dv), ("description", Cell.str desc),
          ("amount", Cell.num 0)] "posted_date" = Cell.none := rfl
      have g3 : rowGet [("date", Cell.str dv), ("description", Cell.str desc),
          ("amount", Cell.num 0)] "transaction_date" = Cell.none := rfl
      have g4 : rowGet [("date", Cell.str dv), ("description", Cell.str desc),
          ("amount", Cell.num 0)] "amount" = Cell.num 0 := rfl
      have g5 : rowGet [("date", Cell.str dv), ("description", Cell.str desc),
          ("amount", Cell.num 0)] "transaction_amount" = Cell.none := rfl
      have hp : pyOr (Cell.str dv) Cell.none = Cell.str dv := by
        simp [pyOr, truthy, h2]
      simp only [processRow, g1, g2, g3, g4, g5, pyOr_none, pyOr_num_zero, hp, c1, c2, h1]
      rfl
    refine ⟨by simp [convertAux, hz]; rfl, ?_⟩
    have g1 : rowGet [("date", Cell.str dv), ("description", Cell.str desc),
        ("amount", Cell.str "0")] "date" = Cell.str dv := rfl
    have g2 : rowGet [("date", Cell.str dv), ("description", Cell.str desc),
        ("amount", Cell.str "0")] "posted_date" = Cell.none := rfl
    have g3 : rowGet [("date", Cell.str dv), ("description", Cell.str desc),
        ("amount", Cell.str "0")] "transaction_date" = Cell.none := rfl
    have g4 : rowGet [("date", Cell.str dv), ("description", Cell.str desc),
        ("amount", Cell.str "0")] "amount" = Cell.str "0" := rfl
    have g5 : rowGet [("date", Cell.str dv), ("description", Cell.str desc),
        ("amount", Cell.str "0")] "transaction_amount" = Cell.none := rfl
    have hp : pyOr (Cell.str dv) Cell.none = Cell.str dv := by
      simp [pyOr, truthy, h2]
    have hp0 : pyOr (Cell.str "0") Cell.none = Cell.str "0" := rfl
    have hde : rowDescription [("date", Cell.str dv), ("description", Cell.str desc),
        ("amount", Cell.str "0")] = trimStr desc := by
      simp [rowDescription, rowGet, pyOr, truthy, h4, cellToStr]
    have hme : rowMemo [("date", Cell.str dv), ("description", Cell.str desc),
        ("amount", Cell.str "0")] = trimStr desc := by
      simp [rowMemo, rowGet, pyOr, truthy, h4, cellToStr]
    refine ⟨⟨ymdStr d, mkRat 0 1, trimStr desc, trimStr desc, "CREDIT"⟩, ?_,
      (by decide : mkRat 0 1 = (0 : ℚ)), rfl, (by decide : fmt2 (mkRat 0 1) = "0.00")⟩
    simp only [processRow, g1, g2, g3, g4, g5, pyOr_none, hp, hp0, h1, hde, hme, c1, c2, h5,
      show parseFloat "0" = Option.some (mkRat 0 1) from by decide]
    rfl

theorem C9_zero_amount_witness :
    convertAux [[("date", Cell.str "01/15/2024"), ("description", Cell.str "Coffee"),
      ("amount", Cell.num 0)]] 0 0 = ([], ["Row 1: Missing amount"]) ∧
    ∃ p : PreRecord,
      processRow [("date", Cell.str "01/15/2024"), ("description", Cell.str "Coffee"),
        ("amount", Cell.str "0")] = RowOutcome.emit p ∧
      p.amount = 0 ∧ p.trntype = "CREDIT" ∧ fmt2 p.amount = "0.00" :=
  C9_zero_amount.2 "01/15/2024" "Coffee" ⟨2024, 1, 15⟩
    (by decide) (by decide) (by decide) (by decide) (by decide)

end BofaQfx
